import Mathlib

/-!
Shallow embedding of the complaint-management backend
(`src/server.js`, complaints router, together with the auth middleware in
`src/unnamed/part_002`).

Timestamps (`CURRENT_TIMESTAMP`) are modelled as a `Nat` parameter `now`
passed to every mutating operation.  SQL `SERIAL` primary keys are modelled
by a `nextId` counter in the database state.  HTTP responses are modelled as
`Except Nat α`, the `Nat` being the HTTP status code of the error branch;
mutating handlers return the (possibly unchanged) database state alongside
the response, so that "no row inserted / no audit entry written" is the
statement `snd = db`.
-/

deriving instance DecidableEq for Except

namespace FeedbackSys

/-- User roles, from the `role` column checked by string comparison in the
source (`'student'`, `'sub_admin'`, `'super_admin'`). -/
inductive Role where
  | student
  | sub_admin
  | super_admin
deriving DecidableEq, Repr

/-- Complaint statuses; `body('status').isIn(['pending', 'in_progress',
'resolved', 'rejected'])` in the source. -/
inductive Status where
  | pending
  | in_progress
  | resolved
  | rejected
deriving DecidableEq, Repr

/-- The authenticated actor: `req.user` as produced by `authenticateToken`
(`id`, `role`, `domain_id`; `domain_id` is nullable). -/
structure Actor where
  id : Nat
  role : Role
  domainId : Option Nat
deriving DecidableEq, Repr

/-- A row of the `domains` table. -/
structure Domain where
  id : Nat
  name : String
deriving DecidableEq, Repr

/-- A row of the `users` table (only the columns the complaint queries
touch: the super-admin list/get queries join `users u ON c.student_id = u.id`). -/
structure UserRec where
  id : Nat
  name : String
  email : String
deriving DecidableEq, Repr

/-- A row of the `complaints` table. -/
structure Complaint where
  id : Nat
  title : String
  description : String
  domainId : Nat
  studentId : Nat
  status : Status
  priority : String
  resolutionDetails : Option String
  resolvedAt : Option Nat
  adminSeen : Bool
  adminReadAt : Option Nat
  createdAt : Nat
  updatedAt : Nat
deriving DecidableEq, Repr

/-- A row of the `complaint_transfers` table. -/
structure TransferRec where
  complaintId : Nat
  fromDomainId : Nat
  toDomainId : Nat
  transferredBy : Nat
  reason : String
deriving DecidableEq, Repr

/-- A row of the `audit_logs` table.  The JSON `old_values`/`new_values`
payloads are not modelled; the claims only concern which entries exist. -/
structure AuditEntry where
  userId : Nat
  action : String
  resourceType : String
  resourceId : Nat
deriving DecidableEq, Repr

/-- The relational state the complaints router reads and writes. -/
structure DB where
  complaints : List Complaint
  domains : List Domain
  users : List UserRec
  transfers : List TransferRec
  auditLogs : List AuditEntry
  nextId : Nat
deriving DecidableEq, Repr

/-- `SELECT id FROM domains WHERE id = $1` has a row. -/
def domainExists (db : DB) (d : Nat) : Bool :=
  db.domains.any (fun x => x.id == d)

/-- The `users` table has a row with this id (used by the super-admin
queries' `JOIN users u ON c.student_id = u.id`). -/
def userExists (db : DB) (u : Nat) : Bool :=
  db.users.any (fun x => x.id == u)

/-- The `.trim()` sanitizer applied by the express-validator chains (strip
leading and trailing whitespace).  Defined over the character list so that
it evaluates by kernel reduction (core `String.trim` does not). -/
def jsTrim (s : String) : String :=
  ⟨((s.data.dropWhile Char.isWhitespace).reverse.dropWhile Char.isWhitespace).reverse⟩

/-- `requireRole` middleware from the auth middleware file:
`roles.includes(req.user.role)`. -/
def requireRole (roles : List Role) (r : Role) : Bool :=
  roles.contains r

/-- `requireSuperAdmin = requireRole(['super_admin'])`. -/
def requireSuperAdmin (r : Role) : Bool :=
  requireRole [Role.super_admin] r

/-- `requireSubAdmin = requireRole(['sub_admin', 'super_admin'])`. -/
def requireSubAdmin (r : Role) : Bool :=
  requireRole [Role.sub_admin, Role.super_admin] r

/-- `requireStudent = requireRole(['student', 'sub_admin', 'super_admin'])`
— note: the source admits every role here, not just students. -/
def requireStudent (r : Role) : Bool :=
  requireRole [Role.student, Role.sub_admin, Role.super_admin] r

/-- Descending order on creation time: `ORDER BY c.created_at DESC`. -/
def createdDescLe (a b : Complaint) : Prop :=
  b.createdAt ≤ a.createdAt

instance : DecidableRel createdDescLe := fun a b => Nat.decLe b.createdAt a.createdAt

instance : IsTotal Complaint createdDescLe :=
  ⟨fun a b => Nat.le_total b.createdAt a.createdAt⟩

instance : IsTrans Complaint createdDescLe :=
  ⟨fun _ _ _ hab hbc => Nat.le_trans hbc hab⟩

/-- `GET /complaints` (list), `router.get('/')`: role-dependent `WHERE`
clause, `ORDER BY c.created_at DESC`.  The `JOIN domains` (and, for the
super-admin query, `JOIN users`) drops rows whose foreign key has no match.
The per-role `SELECT` column lists differ only in projection; the returned
row set is determined by the `WHERE`/`JOIN` clauses modelled here. -/
def listComplaints (actor : Actor) (db : DB) : List Complaint :=
  match actor.role with
  | Role.student =>
      List.insertionSort createdDescLe
        (db.complaints.filter
          (fun c => c.studentId == actor.id && domainExists db c.domainId))
  | Role.sub_admin =>
      List.insertionSort createdDescLe
        (db.complaints.filter
          (fun c => (some c.domainId == actor.domainId) && domainExists db c.domainId))
  | Role.super_admin =>
      List.insertionSort createdDescLe
        (db.complaints.filter
          (fun c => domainExists db c.domainId && userExists db c.studentId))

/-- The row shape of the public listing: `SELECT c.id, c.title,
c.resolution_details, c.resolved_at, d.name as domain_name`. -/
structure PublicRow where
  id : Nat
  title : String
  resolutionDetails : Option String
  resolvedAt : Option Nat
  domainName : String
deriving DecidableEq, Repr

/-- `d.name` obtained by the `JOIN domains d ON c.domain_id = d.id`. -/
def domainNameOf (db : DB) (d : Nat) : String :=
  match db.domains.find? (fun x => x.id == d) with
  | some dom => dom.name
  | none => ""

/-- Projection of a complaint row to the public listing's column list. -/
def projPublic (db : DB) (c : Complaint) : PublicRow :=
  { id := c.id
    title := c.title
    resolutionDetails := c.resolutionDetails
    resolvedAt := c.resolvedAt
    domainName := domainNameOf db c.domainId }

/-- Postgres `ORDER BY resolved_at DESC`: larger timestamps first, and a
`NULL` key sorts before every non-`NULL` key (`DESC` defaults to
`NULLS FIRST`). -/
def pgDescLe (a b : Option Nat) : Prop :=
  match a, b with
  | none, _ => True
  | some _, none => False
  | some x, some y => y ≤ x

instance : DecidableRel pgDescLe := fun a b =>
  match a, b with
  | none, _ => Decidable.isTrue trivial
  | some _, none => Decidable.isFalse (fun h => h)
  | some x, some y => Nat.decLe y x

/-- The public listing's sort order, on projected rows. -/
def rowDescLe (a b : PublicRow) : Prop :=
  pgDescLe a.resolvedAt b.resolvedAt

instance : DecidableRel rowDescLe := fun a b =>
  inferInstanceAs (Decidable (pgDescLe a.resolvedAt b.resolvedAt))

instance : IsTotal PublicRow rowDescLe :=
  ⟨fun a b => by
    unfold rowDescLe pgDescLe
    cases a.resolvedAt <;> cases b.resolvedAt <;> simp [Nat.le_total]⟩

instance : IsTrans PublicRow rowDescLe :=
  ⟨fun a b c hab hbc => by
    unfold rowDescLe pgDescLe at *
    cases ha : a.resolvedAt <;> cases hb : b.resolvedAt <;> cases hc : c.resolvedAt <;>
      simp_all
    exact Nat.le_trans hbc hab⟩

/-- `GET /complaints/public`, `router.get('/public')` (no authentication):
`WHERE c.status = 'resolved'`, `JOIN domains`, `ORDER BY c.resolved_at DESC`,
`LIMIT 50`.  The `ORDER BY` key is part of the projected row, so sorting the
projected rows is equivalent to sorting before projecting. -/
def publicComplaints (db : DB) : List PublicRow :=
  (List.insertionSort rowDescLe
    ((db.complaints.filter
        (fun c => c.status == Status.resolved && domainExists db c.domainId)).map
      (projPublic db))).take 50

/-- The role-scoped lookup predicate of `GET /complaints/:id`: the scope is
part of the `WHERE` clause itself (`c.id = $1 AND c.student_id = $2` for
students, `c.id = $1 AND c.domain_id = $2` for sub-admins, plus the joins). -/
def getScopePred (actor : Actor) (db : DB) (cid : Nat) (c : Complaint) : Bool :=
  match actor.role with
  | Role.student =>
      c.id == cid && c.studentId == actor.id && domainExists db c.domainId
  | Role.sub_admin =>
      c.id == cid && (some c.domainId == actor.domainId) && domainExists db c.domainId
  | Role.super_admin =>
      c.id == cid && domainExists db c.domainId && userExists db c.studentId

/-- `GET /complaints/:id`, `router.get('/:id')`.  `parseInt` of the path id
with the `complaintId <= 0` guard is modelled by the `cid == 0` check on
`Nat` (a non-positive or unparsable id yields 400).  An empty scoped lookup
yields 404; otherwise the row is returned. -/
def getComplaint (actor : Actor) (cid : Nat) (db : DB) : Except Nat Complaint :=
  if cid == 0 then Except.error 400
  else
    match db.complaints.find? (getScopePred actor db cid) with
    | none => Except.error 404
    | some c => Except.ok c

/-- `POST /complaints`, `router.post('/')`: `authenticateToken`,
`requireStudent`, validators (`title` trimmed to length 5–255,
`description` trimmed to length ≥ 10, `domainId` an integer — the latter by
typing here), then the `domains` existence check, then the `INSERT` with
`status` defaulting to `pending` and the `CREATE` audit entry. -/
def createComplaint (actor : Actor) (title description : String) (domainId : Nat)
    (priority : Option String) (now : Nat) (db : DB) : Except Nat Complaint × DB :=
  if requireStudent actor.role = false then (Except.error 403, db)
  else if ¬(5 ≤ (jsTrim title).length ∧ (jsTrim title).length ≤ 255 ∧
            10 ≤ (jsTrim description).length) then (Except.error 400, db)
  else if domainExists db domainId = false then (Except.error 400, db)
  else
    let c : Complaint :=
      { id := db.nextId
        title := (jsTrim title)
        description := (jsTrim description)
        domainId := domainId
        studentId := actor.id
        status := Status.pending
        priority := priority.getD "medium"
        resolutionDetails := none
        resolvedAt := none
        adminSeen := false
        adminReadAt := none
        createdAt := now
        updatedAt := now }
    (Except.ok c,
      { db with
        complaints := db.complaints ++ [c]
        nextId := db.nextId + 1
        auditLogs := db.auditLogs ++
          [{ userId := actor.id
             action := "CREATE"
             resourceType := "complaint"
             resourceId := c.id }] })

/-- The role-scoped `SELECT ... FROM complaints` lookup shared verbatim by
`PUT /complaints/:id` and `PUT /complaints/:id/mark-seen`:
`WHERE id = $1 AND domain_id = $2` for a sub-admin, `WHERE id = $1`
otherwise (no joins). -/
def adminScopedLookup (actor : Actor) (cid : Nat) (db : DB) : Option Complaint :=
  match actor.role with
  | Role.sub_admin =>
      db.complaints.find? (fun c => c.id == cid && some c.domainId == actor.domainId)
  | _ => db.complaints.find? (fun c => c.id == cid)

/-- The condition under which `PUT /complaints/:id` sets `resolved_at`:
`if (resolutionDetails && status === 'resolved')` — the details string
(trimmed by the validator) must be present and non-empty (truthy), and the
new status must be `resolved`. -/
def setsResolved (st : Status) (rd : Option String) : Bool :=
  (match rd.map jsTrim with
   | some s => !(s == "")
   | none => false) && (st == Status.resolved)

/-- `PUT /complaints/:id`, `router.put('/:id')`: `requireSubAdmin`, status
validated by typing, the `complaintId <= 0` guard, then a role-scoped
lookup (`WHERE id = $1 AND domain_id = $2` for sub-admins, unscoped for
super-admins; no joins).  On a hit, the `UPDATE ... WHERE id = $n` sets
`status` and `updated_at`, plus `resolution_details`/`resolved_at` exactly
when `setsResolved`, and an `UPDATE` audit entry is appended. -/
def updateStatus (actor : Actor) (cid : Nat) (st : Status) (rd : Option String)
    (now : Nat) (db : DB) : Except Nat Unit × DB :=
  if requireSubAdmin actor.role = false then (Except.error 403, db)
  else if cid == 0 then (Except.error 400, db)
  else
    match adminScopedLookup actor cid db with
    | none => (Except.error 404, db)
    | some _ =>
      let upd (c : Complaint) : Complaint :=
        if c.id == cid then
          if setsResolved st rd then
            { c with
              status := st
              updatedAt := now
              resolutionDetails := rd.map jsTrim
              resolvedAt := some now }
          else
            { c with status := st, updatedAt := now }
        else c
      (Except.ok (),
        { db with
          complaints := db.complaints.map upd
          auditLogs := db.auditLogs ++
            [{ userId := actor.id
               action := "UPDATE"
               resourceType := "complaint"
               resourceId := cid }] })

/-- `PUT /complaints/:id/mark-seen`, `router.put('/:id/mark-seen')`:
`requireSubAdmin`, the id guard, role-scoped lookup, then
`UPDATE ... SET admin_seen = true, admin_read_at = CURRENT_TIMESTAMP,
updated_at = CURRENT_TIMESTAMP WHERE id = $1` and a `MARK_SEEN` audit
entry.  `admin_read_at` is refreshed on every call. -/
def markSeen (actor : Actor) (cid : Nat) (now : Nat) (db : DB) :
    Except Nat Unit × DB :=
  if requireSubAdmin actor.role = false then (Except.error 403, db)
  else if cid == 0 then (Except.error 400, db)
  else
    match adminScopedLookup actor cid db with
    | none => (Except.error 404, db)
    | some _ =>
      let upd (c : Complaint) : Complaint :=
        if c.id == cid then
          { c with adminSeen := true, adminReadAt := some now, updatedAt := now }
        else c
      (Except.ok (),
        { db with
          complaints := db.complaints.map upd
          auditLogs := db.auditLogs ++
            [{ userId := actor.id
               action := "MARK_SEEN"
               resourceType := "complaint"
               resourceId := cid }] })

/-- `POST /complaints/:id/transfer`, `router.post('/:id/transfer')`:
`requireSubAdmin`, validators (`toDomainId` an integer — by typing — and
`reason` trimmed to length ≥ 5), the id guard, then the lookup
`WHERE c.id = $1` with the `domains` join — NOT scoped by the acting
sub-admin's own domain.  A miss yields 404; `currentDomainId === toDomainId`
yields 400; the target domain's foreign-key constraint (violation caught as
Postgres error `23503` → 400 in the source) is modelled by the
`domainExists db toDomainId` check.  On success the complaint's `domain_id`
is updated, a transfer record (with the trimmed reason) and a `TRANSFER`
audit entry are appended. -/
def transferComplaint (actor : Actor) (cid : Nat) (toDomainId : Nat)
    (reason : String) (now : Nat) (db : DB) : Except Nat Unit × DB :=
  if requireSubAdmin actor.role = false then (Except.error 403, db)
  else if (jsTrim reason).length < 5 then (Except.error 400, db)
  else if cid == 0 then (Except.error 400, db)
  else
    match db.complaints.find? (fun c => c.id == cid && domainExists db c.domainId) with
    | none => (Except.error 404, db)
    | some c =>
      if c.domainId == toDomainId then (Except.error 400, db)
      else if domainExists db toDomainId = false then (Except.error 400, db)
      else
        let upd (x : Complaint) : Complaint :=
          if x.id == cid then { x with domainId := toDomainId, updatedAt := now }
          else x
        (Except.ok (),
          { db with
            complaints := db.complaints.map upd
            transfers := db.transfers ++
              [{ complaintId := cid
                 fromDomainId := c.domainId
                 toDomainId := toDomainId
                 transferredBy := actor.id
                 reason := (jsTrim reason) }]
            auditLogs := db.auditLogs ++
              [{ userId := actor.id, action := "TRANSFER", resourceType := "complaint",
                 resourceId := cid }] })

/-- Relational well-formedness guaranteed by the schema: primary-key
uniqueness and positivity of `complaints.id` (`SERIAL`), and the
foreign-key constraints `complaints.domain_id → domains.id`,
`complaints.student_id → users.id`. -/
def WellFormed (db : DB) : Prop :=
  (db.complaints.map (fun c => c.id)).Nodup ∧
  ∀ c ∈ db.complaints,
    0 < c.id ∧ domainExists db c.domainId = true ∧ userExists db c.studentId = true

instance (db : DB) : Decidable (WellFormed db) := by
  unfold WellFormed; infer_instance

/-- Modelled from the spec (§4.1 visibility rule, for the refinement
claims): a student sees exactly the complaints with `studentId = actor.id`,
a sub-admin exactly those with `domainId = actor.domainId`, a super-admin
all of them. -/
def specVisible (actor : Actor) (c : Complaint) : Prop :=
  match actor.role with
  | Role.student => c.studentId = actor.id
  | Role.sub_admin => some c.domainId = actor.domainId
  | Role.super_admin => True

instance (actor : Actor) (c : Complaint) : Decidable (specVisible actor c) := by
  unfold specVisible
  cases actor.role <;> infer_instance

/-- Sample domain 1 ("Hostel"). -/
def dom1 : Domain := { id := 1, name := "Hostel" }

/-- Sample domain 2 ("Mess"). -/
def dom2 : Domain := { id := 2, name := "Mess" }

/-- Sample student user record. -/
def stud7 : UserRec := { id := 7, name := "Stu", email := "stu@example.org" }

/-- Sample student actor (id 7). -/
def actorStudent : Actor := { id := 7, role := Role.student, domainId := none }

/-- A second sample student actor (id 8). -/
def actorStudent8 : Actor := { id := 8, role := Role.student, domainId := none }

/-- Sample sub-admin of domain 1. -/
def actorSub1 : Actor := { id := 21, role := Role.sub_admin, domainId := some 1 }

/-- Sample sub-admin of domain 2. -/
def actorSub2 : Actor := { id := 22, role := Role.sub_admin, domainId := some 2 }

/-- Sample super-admin. -/
def actorSuper : Actor := { id := 90, role := Role.super_admin, domainId := none }

/-- Sample database with two domains, a few users and no complaints. -/
def baseDb : DB :=
  { complaints := []
    domains := [dom1, dom2]
    users := [stud7, { id := 8, name := "Stu8", email := "stu8@example.org" },
              { id := 21, name := "SubA", email := "a@example.org" },
              { id := 22, name := "SubB", email := "b@example.org" },
              { id := 90, name := "Root", email := "root@example.org" }]
    transfers := []
    auditLogs := []
    nextId := 1 }

/-- A sample complaint row builder used by the concrete test states. -/
def mkComplaint (i dom stu created : Nat) (st : Status) (rAt : Option Nat) : Complaint :=
  { id := i
    title := "Sample complaint title"
    description := "Sample complaint description"
    domainId := dom
    studentId := stu
    status := st
    priority := "medium"
    resolutionDetails := match rAt with | some _ => some "Fixed" | none => none
    resolvedAt := rAt
    adminSeen := false
    adminReadAt := none
    createdAt := created
    updatedAt := created }

/-- Sample database with one pending complaint (id 1, domain 1, student 7). -/
def dbOnePending : DB :=
  { baseDb with complaints := [mkComplaint 1 1 7 5 Status.pending none], nextId := 2 }

/-- Sample three-complaint database: two complaints by student 7 (domains
2 and 1), one by student 8 (domain 1). -/
def dbList : DB :=
  { baseDb with
    complaints := [mkComplaint 1 1 7 5 Status.pending none,
                   mkComplaint 2 1 8 9 Status.pending none,
                   mkComplaint 3 2 7 8 Status.pending none]
    nextId := 4 }


/-! ### Helper lemmas -/

/-- `requireStudent` accepts every role (its role list enumerates all
three roles). -/
theorem requireStudent_true (r : Role) : requireStudent r = true := by
  cases r <;> rfl

/-- Primary-key uniqueness: two complaint rows with the same id are the
same row. -/
theorem eq_of_mem_of_id_eq {db : DB} (hwf : WellFormed db) {c c' : Complaint}
    (hc : c ∈ db.complaints) (hc' : c' ∈ db.complaints) (h : c'.id = c.id) :
    c' = c :=
  List.inj_on_of_nodup_map hwf.1 hc' hc h

/-- A `find?` whose predicate pins down the id returns the unique row with
that id when the row satisfies the predicate. -/
theorem find?_eq_some_of_unique {db : DB} (hwf : WellFormed db) {c : Complaint}
    (hc : c ∈ db.complaints) {p : Complaint → Bool}
    (hp : ∀ x, p x = true → x.id = c.id) (hpc : p c = true) :
    db.complaints.find? p = some c := by
  cases hfind : db.complaints.find? p with
  | none => exact absurd hpc (List.find?_eq_none.mp hfind c hc)
  | some x =>
    have hx := List.find?_some hfind
    have hmem := List.mem_of_find?_eq_some hfind
    rw [eq_of_mem_of_id_eq hwf hc hmem (hp x hx)]

/-- A `find?` whose predicate pins down the id returns nothing when the
unique row with that id fails the predicate. -/
theorem find?_eq_none_of_unique {db : DB} (hwf : WellFormed db) {c : Complaint}
    (hc : c ∈ db.complaints) {p : Complaint → Bool}
    (hp : ∀ x, p x = true → x.id = c.id) (hpc : p c = false) :
    db.complaints.find? p = none := by
  apply List.find?_eq_none.mpr
  intro x hx hpx
  have hxc : x = c := eq_of_mem_of_id_eq hwf hc hx (hp x hpx)
  subst hxc
  rw [hpc] at hpx
  exact Bool.noConfusion hpx

/-! ### C7 -/

/-- C7: a Create call whose `domainId` is not in the domain set fails with
400 (Invalid domain) and leaves the database state unchanged — no complaint
row inserted and no audit entry written. -/
theorem create_invalid_domain_rejected (actor : Actor) (title description : String)
    (domainId : Nat) (prio : Option String) (now : Nat) (db : DB)
    (hv : 5 ≤ (jsTrim title).length ∧ (jsTrim title).length ≤ 255 ∧
          10 ≤ (jsTrim description).length)
    (hdom : domainExists db domainId = false) :
    createComplaint actor title description domainId prio now db =
      (Except.error 400, db) := by
  unfold createComplaint
  rw [requireStudent_true, if_neg (by simp), if_neg (not_not_intro hv), if_pos hdom]

/-- Witness for C7 at concrete inputs. -/
theorem create_invalid_domain_rejected_witness :
    ((5 ≤ (jsTrim "Leaking tap in block A").length ∧
      (jsTrim "Leaking tap in block A").length ≤ 255 ∧
      10 ≤ (jsTrim "Tap has been leaking for a week").length) ∧
     domainExists baseDb 99 = false) ∧
    createComplaint actorStudent "Leaking tap in block A"
      "Tap has been leaking for a week" 99 none 10 baseDb = (Except.error 400, baseDb) :=
  ⟨⟨by decide, by decide⟩,
    create_invalid_domain_rejected actorStudent "Leaking tap in block A"
      "Tap has been leaking for a week" 99 none 10 baseDb (by decide) (by decide)⟩

/-! ### C8 -/

/-- C8: a Transfer call whose `toDomainId` equals the complaint's current
`domainId` fails with 400 (same-domain transfer) and leaves the database
state unchanged — the complaint keeps its domain, and no transfer record or
audit entry is written. -/
theorem transfer_same_domain_rejected (actor : Actor) (cid : Nat) (reason : String)
    (now : Nat) (db : DB) (c : Complaint)
    (hwf : WellFormed db) (hc : c ∈ db.complaints) (hid : c.id = cid)
    (hrole : requireSubAdmin actor.role = true)
    (hr : 5 ≤ (jsTrim reason).length) :
    transferComplaint actor cid c.domainId reason now db = (Except.error 400, db) := by
  have hpos : 0 < c.id := (hwf.2 c hc).1
  have hdex : domainExists db c.domainId = true := (hwf.2 c hc).2.1
  have hfind : db.complaints.find? (fun x => x.id == cid && domainExists db x.domainId) =
      some c := by
    apply find?_eq_some_of_unique hwf hc
    · intro x hx
      rw [Bool.and_eq_true, beq_iff_eq] at hx
      rw [hx.1, hid]
    · rw [Bool.and_eq_true, beq_iff_eq]
      exact ⟨hid, hdex⟩
  have hcid : cid ≠ 0 := by rw [← hid]; exact Nat.pos_iff_ne_zero.mp hpos
  unfold transferComplaint
  rw [hrole, if_neg (by simp), if_neg (by omega), if_neg (by simp [hcid]), hfind]
  simp

/-- Witness for C8 at concrete inputs. -/
theorem transfer_same_domain_rejected_witness :
    (WellFormed dbOnePending ∧
     mkComplaint 1 1 7 5 Status.pending none ∈ dbOnePending.complaints ∧
     (mkComplaint 1 1 7 5 Status.pending none).id = 1 ∧
     requireSubAdmin actorSub1.role = true ∧
     5 ≤ (jsTrim "please handle this").length) ∧
    transferComplaint actorSub1 1 (mkComplaint 1 1 7 5 Status.pending none).domainId
      "please handle this" 11 dbOnePending = (Except.error 400, dbOnePending) :=
  ⟨⟨by decide, by decide, by decide, by decide, by decide⟩,
    transfer_same_domain_rejected actorSub1 1 "please handle this" 11 dbOnePending
      (mkComplaint 1 1 7 5 Status.pending none)
      (by decide) (by decide) (by decide) (by decide) (by decide)⟩

/-! ### C3 -/

/-- The complaint produced when the sub-admin of domain 1 creates a
complaint against domain 1 (used by the C3 counterexample). -/
def subAdminCreated : Complaint :=
  { id := 1
    title := "Leaking tap in block A"
    description := "Tap has been leaking for a week"
    domainId := 1
    studentId := 21
    status := Status.pending
    priority := "medium"
    resolutionDetails := none
    resolvedAt := none
    adminSeen := false
    adminReadAt := none
    createdAt := 10
    updatedAt := 10 }

/-- C3 counterexample: the claim says a sub-admin attempting Create fails
with a permission error and nothing is inserted, but `requireStudent`
admits every role, so the sub-admin `actorSub1` successfully creates a
complaint (recorded with `studentId = actorSub1.id`) and the row is
inserted. -/
theorem create_by_sub_admin_succeeds_cx :
    (createComplaint actorSub1 "Leaking tap in block A"
        "Tap has been leaking for a week" 1 none 10 baseDb).fst =
      Except.ok subAdminCreated ∧
    subAdminCreated ∈ (createComplaint actorSub1 "Leaking tap in block A"
        "Tap has been leaking for a week" 1 none 10 baseDb).snd.complaints ∧
    subAdminCreated.studentId = actorSub1.id := by
  decide

/-- C3 amended: Create is permitted for every authenticated role —
`requireStudent` admits `student`, `sub_admin` and `super_admin` alike —
so with valid fields and an existing domain any actor's Create succeeds and
inserts a pending complaint owned by that actor. -/
theorem create_permitted_any_role (actor : Actor) (title description : String)
    (domainId : Nat) (prio : Option String) (now : Nat) (db : DB)
    (hv : 5 ≤ (jsTrim title).length ∧ (jsTrim title).length ≤ 255 ∧
          10 ≤ (jsTrim description).length)
    (hdom : domainExists db domainId = true) :
    ∃ c, (createComplaint actor title description domainId prio now db).fst =
        Except.ok c ∧
      c.studentId = actor.id ∧ c.status = Status.pending ∧
      c ∈ (createComplaint actor title description domainId prio now db).snd.complaints := by
  unfold createComplaint
  rw [requireStudent_true, if_neg (by simp), if_neg (not_not_intro hv),
    if_neg (by simp [hdom])]
  exact ⟨_, rfl, rfl, rfl, by simp⟩

/-- Witness for the amended C3 at concrete inputs (a super-admin creating). -/
theorem create_permitted_any_role_witness :
    ((5 ≤ (jsTrim "Leaking tap in block A").length ∧
      (jsTrim "Leaking tap in block A").length ≤ 255 ∧
      10 ≤ (jsTrim "Tap has been leaking for a week").length) ∧
     domainExists baseDb 1 = true) ∧
    ∃ c, (createComplaint actorSuper "Leaking tap in block A"
        "Tap has been leaking for a week" 1 none 10 baseDb).fst = Except.ok c ∧
      c.studentId = actorSuper.id ∧ c.status = Status.pending ∧
      c ∈ (createComplaint actorSuper "Leaking tap in block A"
        "Tap has been leaking for a week" 1 none 10 baseDb).snd.complaints :=
  ⟨⟨by decide, by decide⟩,
    create_permitted_any_role actorSuper "Leaking tap in block A"
      "Tap has been leaking for a week" 1 none 10 baseDb (by decide) (by decide)⟩

/-! ### C2 -/

/-- C2: the Get lookup applies the role scope inside the query predicate,
so an existing complaint outside the actor's scope yields 404 (not found);
and no branch of the Get handler ever returns 403 (forbidden). -/
theorem get_scope_mismatch_not_found (actor : Actor) (cid : Nat) (db : DB)
    (c : Complaint) (hwf : WellFormed db) (hc : c ∈ db.complaints)
    (hid : c.id = cid) (hout : ¬ specVisible actor c) :
    getComplaint actor cid db = Except.error 404 ∧
    ∀ (a : Actor) (i : Nat) (d : DB), getComplaint a i d ≠ Except.error 403 := by
  constructor
  · have hcid : ¬((cid == 0) = true) := by
      have hpos : 0 < c.id := (hwf.2 c hc).1
      simp only [beq_iff_eq]
      omega
    have hnone : db.complaints.find? (getScopePred actor db cid) = none := by
      apply find?_eq_none_of_unique hwf hc
      · intro x hx
        obtain ⟨aid, arole, adom⟩ := actor
        cases arole <;>
          simp only [getScopePred, Bool.and_eq_true, beq_iff_eq] at hx <;>
          rw [hx.1.1, hid]
      · obtain ⟨aid, arole, adom⟩ := actor
        cases arole with
        | student =>
          simp only [specVisible] at hout
          simp only [getScopePred, Bool.and_eq_true, beq_iff_eq,
            Bool.and_eq_false_iff]
          simp [hout]
        | sub_admin =>
          simp only [specVisible] at hout
          simp only [getScopePred, Bool.and_eq_true, beq_iff_eq,
            Bool.and_eq_false_iff]
          simp [hout]
        | super_admin => exact absurd trivial hout
    unfold getComplaint
    rw [if_neg hcid, hnone]
  · intro a i d
    unfold getComplaint
    split
    · simp
    · split <;> simp

/-- Witness for C2: student 8 requesting student 7's complaint gets 404. -/
theorem get_scope_mismatch_not_found_witness :
    (WellFormed dbOnePending ∧
     mkComplaint 1 1 7 5 Status.pending none ∈ dbOnePending.complaints ∧
     (mkComplaint 1 1 7 5 Status.pending none).id = 1 ∧
     ¬ specVisible actorStudent8 (mkComplaint 1 1 7 5 Status.pending none)) ∧
    (getComplaint actorStudent8 1 dbOnePending = Except.error 404 ∧
     ∀ (a : Actor) (i : Nat) (d : DB), getComplaint a i d ≠ Except.error 403) :=
  ⟨⟨by decide, by decide, by decide, by decide⟩,
    get_scope_mismatch_not_found actorStudent8 1 dbOnePending
      (mkComplaint 1 1 7 5 Status.pending none)
      (by decide) (by decide) (by decide) (by decide)⟩

/-! ### C1 -/

/-- C1: for every authenticated actor over a well-formed database, List
returns exactly the complaints allowed by the role-based visibility rule
(students: own complaints; sub-admins: their domain; super-admins: all) and
the result is sorted by creation time, descending. -/
theorem list_scoped_and_sorted (actor : Actor) (db : DB) (hwf : WellFormed db) :
    (listComplaints actor db).Sorted createdDescLe ∧
    ∀ c, c ∈ listComplaints actor db ↔ (c ∈ db.complaints ∧ specVisible actor c) := by
  obtain ⟨aid, arole, adom⟩ := actor
  cases arole with
  | student =>
    refine ⟨List.sorted_insertionSort createdDescLe _, fun c => ?_⟩
    simp only [listComplaints, specVisible, List.mem_insertionSort, List.mem_filter,
      Bool.and_eq_true, beq_iff_eq]
    constructor
    · rintro ⟨hmem, hsid, _⟩
      exact ⟨hmem, hsid⟩
    · rintro ⟨hmem, hsid⟩
      exact ⟨hmem, hsid, (hwf.2 c hmem).2.1⟩
  | sub_admin =>
    refine ⟨List.sorted_insertionSort createdDescLe _, fun c => ?_⟩
    simp only [listComplaints, specVisible, List.mem_insertionSort, List.mem_filter,
      Bool.and_eq_true, beq_iff_eq]
    constructor
    · rintro ⟨hmem, hdid, _⟩
      exact ⟨hmem, hdid⟩
    · rintro ⟨hmem, hdid⟩
      exact ⟨hmem, hdid, (hwf.2 c hmem).2.1⟩
  | super_admin =>
    refine ⟨List.sorted_insertionSort createdDescLe _, fun c => ?_⟩
    simp only [listComplaints, specVisible, List.mem_insertionSort, List.mem_filter,
      Bool.and_eq_true]
    constructor
    · rintro ⟨hmem, _⟩
      exact ⟨hmem, trivial⟩
    · rintro ⟨hmem, _⟩
      exact ⟨hmem, (hwf.2 c hmem).2.1, (hwf.2 c hmem).2.2⟩

/-- Witness for C1: the sample three-complaint database, listed by the
sample student actor. -/
theorem list_scoped_and_sorted_witness :
    WellFormed dbList ∧
    ((listComplaints actorStudent dbList).Sorted createdDescLe ∧
     ∀ c, c ∈ listComplaints actorStudent dbList ↔
       (c ∈ dbList.complaints ∧ specVisible actorStudent c)) :=
  ⟨by decide, list_scoped_and_sorted actorStudent dbList (by decide)⟩

/-! ### C4 -/

/-- C4: the Transfer lookup (`WHERE c.id = $1`, joined with domains) is not
scoped by the acting sub-admin's own domain: a sub-admin of domain `d` can
successfully transfer a complaint whose domain differs from `d` — while
UpdateStatus, MarkSeen and Get, whose lookups are domain-scoped for
sub-admins, all answer 404 for the same actor and complaint. -/
theorem transfer_lookup_unscoped (aid d cid toDomainId : Nat) (reason : String)
    (now : Nat) (db : DB) (c : Complaint)
    (hwf : WellFormed db) (hc : c ∈ db.complaints) (hid : c.id = cid)
    (hout : c.domainId ≠ d)
    (hto : domainExists db toDomainId = true) (hne : c.domainId ≠ toDomainId)
    (hr : 5 ≤ (jsTrim reason).length) :
    (transferComplaint ⟨aid, Role.sub_admin, some d⟩ cid toDomainId reason now db).fst =
      Except.ok () ∧
    { c with domainId := toDomainId, updatedAt := now } ∈
      (transferComplaint ⟨aid, Role.sub_admin, some d⟩ cid toDomainId reason now db).snd.complaints ∧
    (∀ st rd, (updateStatus ⟨aid, Role.sub_admin, some d⟩ cid st rd now db).fst =
      Except.error 404) ∧
    (markSeen ⟨aid, Role.sub_admin, some d⟩ cid now db).fst = Except.error 404 ∧
    getComplaint ⟨aid, Role.sub_admin, some d⟩ cid db = Except.error 404 := by
  have hpos : 0 < c.id := (hwf.2 c hc).1
  have hdex : domainExists db c.domainId = true := (hwf.2 c hc).2.1
  have hcid : ¬((cid == 0) = true) := by
    simp only [beq_iff_eq]
    omega
  have hfind : db.complaints.find?
      (fun x => x.id == cid && domainExists db x.domainId) = some c := by
    apply find?_eq_some_of_unique hwf hc
    · intro x hx
      rw [Bool.and_eq_true, beq_iff_eq] at hx
      rw [hx.1, hid]
    · rw [Bool.and_eq_true, beq_iff_eq]
      exact ⟨hid, hdex⟩
  have hlook : adminScopedLookup ⟨aid, Role.sub_admin, some d⟩ cid db = none := by
    show db.complaints.find?
      (fun x => x.id == cid && some x.domainId == some d) = none
    apply find?_eq_none_of_unique hwf hc
    · intro x hx
      rw [Bool.and_eq_true, beq_iff_eq] at hx
      rw [hx.1, hid]
    · simp [hout]
  refine ⟨?_, ?_, ?_, ?_, ?_⟩
  · unfold transferComplaint
    rw [if_neg (fun h => Bool.noConfusion h), if_neg (by omega), if_neg hcid, hfind]
    simp [hne, hto]
  · unfold transferComplaint
    rw [if_neg (fun h => Bool.noConfusion h), if_neg (by omega), if_neg hcid, hfind]
    have hbne : (c.domainId == toDomainId) = false := by
      simp [hne]
    simp only [hbne, hto, Bool.false_eq_true, if_false, Bool.true_eq_false]
    simp only [List.mem_map]
    refine ⟨c, hc, ?_⟩
    simp [hid]
  · intro st rd
    unfold updateStatus
    rw [if_neg (fun h => Bool.noConfusion h), if_neg hcid, hlook]
  · unfold markSeen
    rw [if_neg (fun h => Bool.noConfusion h), if_neg hcid, hlook]
  · have hget : db.complaints.find?
        (getScopePred ⟨aid, Role.sub_admin, some d⟩ db cid) = none := by
      apply find?_eq_none_of_unique hwf hc
      · intro x hx
        simp only [getScopePred, Bool.and_eq_true, beq_iff_eq] at hx
        rw [hx.1.1, hid]
      · simp only [getScopePred]
        simp [hout]
    unfold getComplaint
    rw [if_neg hcid, hget]

/-- Witness for C4: `actorSub2` (domain 2) transfers the domain-1 complaint
of `dbOnePending` to domain 2. -/
theorem transfer_lookup_unscoped_witness :
    (WellFormed dbOnePending ∧
     mkComplaint 1 1 7 5 Status.pending none ∈ dbOnePending.complaints ∧
     (mkComplaint 1 1 7 5 Status.pending none).id = 1 ∧
     (mkComplaint 1 1 7 5 Status.pending none).domainId ≠ 2 ∧
     domainExists dbOnePending 2 = true ∧
     5 ≤ (jsTrim "please handle this").length) ∧
    ((transferComplaint ⟨22, Role.sub_admin, some 2⟩ 1 2 "please handle this" 11
        dbOnePending).fst = Except.ok () ∧
     { mkComplaint 1 1 7 5 Status.pending none with domainId := 2, updatedAt := 11 } ∈
       (transferComplaint ⟨22, Role.sub_admin, some 2⟩ 1 2 "please handle this" 11
         dbOnePending).snd.complaints ∧
     (∀ st rd, (updateStatus ⟨22, Role.sub_admin, some 2⟩ 1 st rd 11 dbOnePending).fst =
       Except.error 404) ∧
     (markSeen ⟨22, Role.sub_admin, some 2⟩ 1 11 dbOnePending).fst = Except.error 404 ∧
     getComplaint ⟨22, Role.sub_admin, some 2⟩ 1 dbOnePending = Except.error 404) :=
  ⟨⟨by decide, by decide, by decide, by decide, by decide, by decide⟩,
    transfer_lookup_unscoped 22 2 1 2 "please handle this" 11 dbOnePending
      (mkComplaint 1 1 7 5 Status.pending none)
      (by decide) (by decide) (by decide) (by decide) (by decide) (by decide) (by decide)⟩

/-! ### C9 -/

/-- The role-scoped lookup finds a row whenever a complaint with the
requested id is in scope for the actor. -/
theorem adminScopedLookup_found (actor : Actor) (cid : Nat) (db : DB) (c : Complaint)
    (hc : c ∈ db.complaints) (hid : c.id = cid)
    (hscope : actor.role = Role.sub_admin → actor.domainId = some c.domainId) :
    ∃ x, adminScopedLookup actor cid db = some x := by
  obtain ⟨aid, arole, adom⟩ := actor
  cases arole with
  | student =>
    cases hf : db.complaints.find? (fun y => y.id == cid) with
    | none =>
      refine absurd ?_ (List.find?_eq_none.mp hf c hc)
      simp [hid]
    | some x => exact ⟨x, hf⟩
  | sub_admin =>
    have hadom : adom = some c.domainId := hscope rfl
    cases hf : db.complaints.find? (fun y => y.id == cid && some y.domainId == adom) with
    | none =>
      refine absurd ?_ (List.find?_eq_none.mp hf c hc)
      simp [hid, hadom]
    | some x => exact ⟨x, hf⟩
  | super_admin =>
    cases hf : db.complaints.find? (fun y => y.id == cid) with
    | none =>
      refine absurd ?_ (List.find?_eq_none.mp hf c hc)
      simp [hid]
    | some x => exact ⟨x, hf⟩

/-- A single successful MarkSeen call: 200, and the stored row now has
`adminSeen = true`, `adminReadAt` and `updatedAt` at the call's timestamp. -/
theorem markSeen_ok (actor : Actor) (cid t : Nat) (db : DB) (c : Complaint)
    (hc : c ∈ db.complaints) (hid : c.id = cid) (hcid : cid ≠ 0)
    (hrole : requireSubAdmin actor.role = true)
    (hscope : actor.role = Role.sub_admin → actor.domainId = some c.domainId) :
    (markSeen actor cid t db).fst = Except.ok () ∧
    { c with adminSeen := true, adminReadAt := some t, updatedAt := t } ∈
      (markSeen actor cid t db).snd.complaints := by
  have hcid' : ¬((cid == 0) = true) := by simp [hcid]
  have hreq : ¬(requireSubAdmin actor.role = false) := by simp [hrole]
  obtain ⟨x, hx⟩ := adminScopedLookup_found actor cid db c hc hid hscope
  unfold markSeen
  rw [if_neg hreq, if_neg hcid', hx]
  refine ⟨rfl, ?_⟩
  have hm : ({ c with adminSeen := true, adminReadAt := some t, updatedAt := t } : Complaint) =
      (fun y : Complaint =>
        if y.id == cid then { y with adminSeen := true, adminReadAt := some t, updatedAt := t }
        else y) c := by
    simp [hid]
  rw [hm]
  exact List.mem_map_of_mem _ hc

/-- C9: MarkSeen called twice on the same visible complaint succeeds both
times; after the second call the row has `adminSeen = true` and
`adminReadAt` equal to the second call's timestamp (the acknowledgement
time is refreshed on every call, so with call timestamps `t1 ≤ t2` the
stored `adminReadAt` is non-decreasing: `some t1` after the first call,
`some t2` after the second). -/
theorem markSeen_twice_refreshes (actor : Actor) (cid t1 t2 : Nat) (db : DB)
    (c : Complaint) (hc : c ∈ db.complaints) (hid : c.id = cid) (hcid : cid ≠ 0)
    (hrole : requireSubAdmin actor.role = true)
    (hscope : actor.role = Role.sub_admin → actor.domainId = some c.domainId) :
    (markSeen actor cid t1 db).fst = Except.ok () ∧
    { c with adminSeen := true, adminReadAt := some t1, updatedAt := t1 } ∈
      (markSeen actor cid t1 db).snd.complaints ∧
    (markSeen actor cid t2 (markSeen actor cid t1 db).snd).fst = Except.ok () ∧
    { c with adminSeen := true, adminReadAt := some t2, updatedAt := t2 } ∈
      (markSeen actor cid t2 (markSeen actor cid t1 db).snd).snd.complaints := by
  obtain ⟨h1, h2⟩ := markSeen_ok actor cid t1 db c hc hid hcid hrole hscope
  obtain ⟨h3, h4⟩ := markSeen_ok actor cid t2 (markSeen actor cid t1 db).snd
    { c with adminSeen := true, adminReadAt := some t1, updatedAt := t1 }
    h2 hid hcid hrole hscope
  exact ⟨h1, h2, h3, h4⟩

/-- Witness for C9: `actorSub1` acknowledges the sample complaint at times
11 and 12. -/
theorem markSeen_twice_refreshes_witness :
    (mkComplaint 1 1 7 5 Status.pending none ∈ dbOnePending.complaints ∧
     (mkComplaint 1 1 7 5 Status.pending none).id = 1 ∧ (1 : Nat) ≠ 0 ∧
     requireSubAdmin actorSub1.role = true) ∧
    ((markSeen actorSub1 1 11 dbOnePending).fst = Except.ok () ∧
     { mkComplaint 1 1 7 5 Status.pending none with
        adminSeen := true, adminReadAt := some 11, updatedAt := 11 } ∈
       (markSeen actorSub1 1 11 dbOnePending).snd.complaints ∧
     (markSeen actorSub1 1 12 (markSeen actorSub1 1 11 dbOnePending).snd).fst =
       Except.ok () ∧
     { mkComplaint 1 1 7 5 Status.pending none with
        adminSeen := true, adminReadAt := some 12, updatedAt := 12 } ∈
       (markSeen actorSub1 1 12 (markSeen actorSub1 1 11 dbOnePending).snd).snd.complaints) :=
  ⟨⟨by decide, by decide, by decide, by decide⟩,
    markSeen_twice_refreshes actorSub1 1 11 12 dbOnePending
      (mkComplaint 1 1 7 5 Status.pending none)
      (by decide) (by decide) (by decide) (by decide) (by decide)⟩

/-! ### C6 -/

/-- State after the sample student creates the "Leaking tap" complaint. -/
def c6Db1 : DB :=
  (createComplaint actorStudent "Leaking tap in block A"
    "Tap has been leaking for a week" 1 none 10 baseDb).snd

/-- State after the super-admin resolves it with details at time 20. -/
def c6Db2 : DB :=
  (updateStatus actorSuper 1 Status.resolved (some "Plumber fixed it") 20 c6Db1).snd

/-- State after the super-admin then sets it back to pending at time 30. -/
def c6Db3 : DB :=
  (updateStatus actorSuper 1 Status.pending none 30 c6Db2).snd

/-- C6 counterexample: a state reachable through the operations (Create,
then UpdateStatus to resolved with details, then UpdateStatus to pending)
violates the claimed "resolvedAt set iff status resolved" invariant: both
updates succeed, yet the final state holds a complaint with
`status = pending` and `resolvedAt = some 20` still set. -/
theorem resolvedAt_set_while_pending_cx :
    (updateStatus actorSuper 1 Status.resolved (some "Plumber fixed it") 20 c6Db1).fst =
      Except.ok () ∧
    (updateStatus actorSuper 1 Status.pending none 30 c6Db2).fst = Except.ok () ∧
    c6Db3.complaints.any
      (fun c => c.status == Status.pending && c.resolvedAt == some 20) = true := by
  decide

/-- C6 amended: `resolvedAt` is written only by an UpdateStatus transition
to `resolved` with non-empty (trimmed) `resolutionDetails`, in which case it
is set to the transition's timestamp; any other transition — in particular
UpdateStatus to `pending` — leaves `resolvedAt` unchanged from its prior
value (it is never cleared, so the stored value may outlive a later status
change away from `resolved`). -/
theorem updateStatus_resolvedAt_behavior (actor : Actor) (cid : Nat) (st : Status)
    (rd : Option String) (now : Nat) (db : DB) (c : Complaint)
    (hc : c ∈ db.complaints) (hid : c.id = cid)
    (hok : (updateStatus actor cid st rd now db).fst = Except.ok ()) :
    ∃ c', c' ∈ (updateStatus actor cid st rd now db).snd.complaints ∧
      c'.id = cid ∧ c'.status = st ∧
      c'.resolvedAt = (if setsResolved st rd then some now else c.resolvedAt) ∧
      (setsResolved st rd = true → c'.resolutionDetails = rd.map jsTrim) ∧
      (st = Status.pending → c'.resolvedAt = c.resolvedAt) := by
  unfold updateStatus at hok ⊢
  by_cases h1 : requireSubAdmin actor.role = false
  · rw [if_pos h1] at hok
    exact absurd hok (by simp)
  · rw [if_neg h1] at hok ⊢
    by_cases h2 : (cid == 0) = true
    · rw [if_pos h2] at hok
      exact absurd hok (by simp)
    · rw [if_neg h2] at hok ⊢
      cases hf : adminScopedLookup actor cid db with
      | none =>
        rw [hf] at hok
        exact absurd hok (by simp)
      | some y =>
        by_cases hsr : setsResolved st rd = true
        · refine ⟨{ c with status := st, updatedAt := now, resolutionDetails := rd.map jsTrim, resolvedAt := some now }, ?_, hid, rfl, by rw [if_pos hsr], fun _ => rfl, ?_⟩
          · have hm : ({ c with status := st, updatedAt := now, resolutionDetails := rd.map jsTrim, resolvedAt := some now } : Complaint) =
                (fun x : Complaint =>
                  if x.id == cid then
                    if setsResolved st rd then
                      { x with status := st, updatedAt := now, resolutionDetails := rd.map jsTrim, resolvedAt := some now }
                    else { x with status := st, updatedAt := now }
                  else x) c := by
              simp [hid, hsr]
            rw [hm]
            exact List.mem_map_of_mem _ hc
          · intro hp
            subst hp
            simp [setsResolved] at hsr
        · have hsr' : setsResolved st rd = false := by
            simpa using hsr
          refine ⟨{ c with status := st, updatedAt := now }, ?_, hid, rfl, by rw [if_neg hsr], fun h => absurd h hsr, fun _ => rfl⟩
          have hm : ({ c with status := st, updatedAt := now } : Complaint) =
              (fun x : Complaint =>
                if x.id == cid then
                  if setsResolved st rd then
                    { x with status := st, updatedAt := now, resolutionDetails := rd.map jsTrim, resolvedAt := some now }
                  else { x with status := st, updatedAt := now }
                else x) c := by
            simp [hid, hsr']
          rw [hm]
          exact List.mem_map_of_mem _ hc

/-- Witness for the amended C6: the super-admin resolves the sample
complaint with details at time 20. -/
theorem updateStatus_resolvedAt_behavior_witness :
    (mkComplaint 1 1 7 5 Status.pending none ∈ dbOnePending.complaints ∧
     (mkComplaint 1 1 7 5 Status.pending none).id = 1 ∧
     (updateStatus actorSuper 1 Status.resolved (some "Plumber fixed it") 20
       dbOnePending).fst = Except.ok ()) ∧
    ∃ c', c' ∈ (updateStatus actorSuper 1 Status.resolved (some "Plumber fixed it") 20
        dbOnePending).snd.complaints ∧
      c'.id = 1 ∧ c'.status = Status.resolved ∧
      c'.resolvedAt = (if setsResolved Status.resolved (some "Plumber fixed it") then
        some 20 else (mkComplaint 1 1 7 5 Status.pending none).resolvedAt) ∧
      (setsResolved Status.resolved (some "Plumber fixed it") = true →
        c'.resolutionDetails = (some "Plumber fixed it").map jsTrim) ∧
      (Status.resolved = Status.pending →
        c'.resolvedAt = (mkComplaint 1 1 7 5 Status.pending none).resolvedAt) :=
  ⟨⟨by decide, by decide, by decide⟩,
    updateStatus_resolvedAt_behavior actorSuper 1 Status.resolved
      (some "Plumber fixed it") 20 dbOnePending
      (mkComplaint 1 1 7 5 Status.pending none)
      (by decide) (by decide) (by decide)⟩

/-! ### C5 -/

/-- `domainExists` only reads the domains table. -/
theorem domainExists_congr {db db' : DB} (h : db'.domains = db.domains) (d : Nat) :
    domainExists db' d = domainExists db d := by
  unfold domainExists
  rw [h]

/-- `domainNameOf` only reads the domains table. -/
theorem domainNameOf_congr {db db' : DB} (h : db'.domains = db.domains) (d : Nat) :
    domainNameOf db' d = domainNameOf db d := by
  unfold domainNameOf
  rw [h]

/-- The public projection never reads `studentId`. -/
theorem projPublic_congr {db db' : DB} (h : db'.domains = db.domains)
    {c c' : Complaint} (hcc : c' = { c with studentId := c'.studentId }) :
    projPublic db' c' = projPublic db c := by
  unfold projPublic
  rw [hcc]
  simp [domainNameOf_congr h]

/-- The public listing's filtered projection is unchanged when complaints
differ only in `studentId` and the domains table is the same. -/
theorem publicRows_congr {db db' : DB} (h : db'.domains = db.domains) :
    ∀ {l l' : List Complaint},
      List.Forall₂ (fun c c' => c' = { c with studentId := c'.studentId }) l l' →
      (l'.filter
        (fun c => c.status == Status.resolved && domainExists db' c.domainId)).map
          (projPublic db') =
      (l.filter
        (fun c => c.status == Status.resolved && domainExists db c.domainId)).map
          (projPublic db) := by
  intro l l' hrel
  induction hrel with
  | nil => rfl
  | @cons a b l₁ l₂ hR htl ih =>
    have hpred : (b.status == Status.resolved && domainExists db' b.domainId) =
        (a.status == Status.resolved && domainExists db a.domainId) := by
      rw [hR]
      simp [domainExists_congr h]
    by_cases hp : (a.status == Status.resolved && domainExists db a.domainId) = true
    · have hp' : (b.status == Status.resolved && domainExists db' b.domainId) = true := by
        rw [hpred]
        exact hp
      simp only [List.filter_cons, hp', hp, if_true, List.map_cons,
        projPublic_congr h hR, ih]
    · have hpf : (a.status == Status.resolved && domainExists db a.domainId) = false := by
        simpa using hp
      have hpf' : (b.status == Status.resolved && domainExists db' b.domainId) = false := by
        rw [hpred]
        exact hpf
      simp only [List.filter_cons, hpf, hpf', Bool.false_eq_true, if_false, ih]

/-- The sample resolved complaint with a given complaint id: resolved at
time 5, domain 1, student 7. -/
def resolvedSample (i : Nat) : Complaint :=
  mkComplaint i 1 7 1 Status.resolved (some 5)

/-- Sample database with a single resolved complaint (id 1). -/
def dbResolved : DB :=
  { baseDb with complaints := [resolvedSample 1], nextId := 2 }

/-- As `dbResolved` but the resolved complaint has id 2 — every redacted
field (title, resolution details, resolved timestamp, domain name) is
identical. -/
def dbResolvedId2 : DB :=
  { baseDb with complaints := [resolvedSample 2], nextId := 3 }

/-- C5 counterexample: two database states whose resolved complaints agree
on every claimed redacted field (title, resolution details, resolved
timestamp, domain name) and differ only in the complaint id produce
different public listings — the returned records also carry the complaint
id (`SELECT c.id, ...`), so they do not contain only the claimed redacted
field set. -/
theorem public_listing_exposes_id_cx :
    publicComplaints dbResolved ≠ publicComplaints dbResolvedId2 := by
  decide

/-- C5 amended: the public listing returns only resolved complaints, each
record being exactly the projection to the complaint id plus the redacted
field set (title, resolution details, resolved timestamp, domain name) —
never any student identity field: database states that differ only in the
`studentId` of complaints produce identical public listings. -/
theorem public_resolved_redacted_plus_id (db db' : DB)
    (hdom : db'.domains = db.domains)
    (hrel : List.Forall₂ (fun c c' => c' = { c with studentId := c'.studentId })
      db.complaints db'.complaints) :
    (∀ r ∈ publicComplaints db, ∃ c, c ∈ db.complaints ∧
      c.status = Status.resolved ∧ r = projPublic db c) ∧
    publicComplaints db = publicComplaints db' := by
  constructor
  · intro r hr
    unfold publicComplaints at hr
    have hr1 := List.take_subset _ _ hr
    rw [List.mem_insertionSort] at hr1
    obtain ⟨c, hcmem, hproj⟩ := List.mem_map.mp hr1
    rw [List.mem_filter] at hcmem
    refine ⟨c, hcmem.1, ?_, hproj.symm⟩
    have h2 := hcmem.2
    rw [Bool.and_eq_true, beq_iff_eq] at h2
    exact h2.1
  · unfold publicComplaints
    rw [publicRows_congr hdom hrel]

/-- Witness for the amended C5: `dbResolved` against the same state with
the resolved complaint reassigned to student 8. -/
theorem public_resolved_redacted_plus_id_witness :
    (({ baseDb with
        complaints := [{ resolvedSample 1 with studentId := 8 }]
        nextId := 2 } : DB).domains = dbResolved.domains ∧
     List.Forall₂ (fun c c' => c' = { c with studentId := c'.studentId })
       dbResolved.complaints
       ({ baseDb with
          complaints := [{ resolvedSample 1 with studentId := 8 }]
          nextId := 2 } : DB).complaints) ∧
    ((∀ r ∈ publicComplaints dbResolved, ∃ c, c ∈ dbResolved.complaints ∧
        c.status = Status.resolved ∧ r = projPublic dbResolved c) ∧
     publicComplaints dbResolved =
       publicComplaints { baseDb with
         complaints := [{ resolvedSample 1 with studentId := 8 }]
         nextId := 2 }) :=
  ⟨⟨rfl, List.Forall₂.cons (by decide) List.Forall₂.nil⟩,
    public_resolved_redacted_plus_id dbResolved
      { baseDb with
        complaints := [{ resolvedSample 1 with studentId := 8 }]
        nextId := 2 }
      rfl (List.Forall₂.cons (by decide) List.Forall₂.nil)⟩

/-! ### C10 -/

/-- C10: the public listing holds at most 50 rows, is ordered by
`resolved_at` descending (Postgres `DESC`, `NULL` keys first), and a
resolved complaint (with an existing domain) can only be missing from the
listing when the listing is full at exactly 50 rows — resolved complaints
beyond the 50 most recent are silently omitted. -/
theorem public_limit_and_order (db : DB) :
    (publicComplaints db).length ≤ 50 ∧
    (publicComplaints db).Sorted rowDescLe ∧
    ∀ c ∈ db.complaints, c.status = Status.resolved →
      domainExists db c.domainId = true →
      projPublic db c ∉ publicComplaints db →
      (publicComplaints db).length = 50 := by
  refine ⟨?_, ?_, ?_⟩
  · unfold publicComplaints
    rw [List.length_take]
    exact min_le_left _ _
  · unfold publicComplaints
    exact (List.sorted_insertionSort rowDescLe _).sublist (List.take_sublist _ _)
  · intro c hcm hst hdx hnot
    unfold publicComplaints at hnot ⊢
    have hfil : c ∈ db.complaints.filter
        (fun x => x.status == Status.resolved && domainExists db x.domainId) := by
      rw [List.mem_filter]
      refine ⟨hcm, ?_⟩
      rw [Bool.and_eq_true, beq_iff_eq]
      exact ⟨hst, hdx⟩
    have hmem : projPublic db c ∈ List.insertionSort rowDescLe
        ((db.complaints.filter
          (fun x => x.status == Status.resolved && domainExists db x.domainId)).map
            (projPublic db)) := by
      rw [List.mem_insertionSort]
      exact List.mem_map_of_mem _ hfil
    by_cases hlen : (List.insertionSort rowDescLe
        ((db.complaints.filter
          (fun x => x.status == Status.resolved && domainExists db x.domainId)).map
            (projPublic db))).length ≤ 50
    · rw [List.take_of_length_le hlen] at hnot
      exact absurd hmem hnot
    · rw [List.length_take]
      omega

/-- Witness for C10 at a concrete state: the resolved complaint of
`dbResolved` appears (the inner hypotheses are dischargeable there). -/
theorem public_limit_and_order_witness :
    (publicComplaints dbResolved).length ≤ 50 ∧
    (publicComplaints dbResolved).Sorted rowDescLe ∧
    ∀ c ∈ dbResolved.complaints, c.status = Status.resolved →
      domainExists dbResolved c.domainId = true →
      projPublic dbResolved c ∉ publicComplaints dbResolved →
      (publicComplaints dbResolved).length = 50 :=
  public_limit_and_order dbResolved

end FeedbackSys
